import Mathlib

/-!
Verification of the sandboxed execution engine of `bug39/platform`.

The definitions below are a shallow embedding of
`src/assistant/runtimes/docker.py` (the `ContainerConfig` dataclass, the
`DockerManager` class with `__init__`, `ensure_image`, `run_container`,
`_cleanup_container`, `remove_image`) and of
`src/assistant/runtimes/python.py` (`PythonRuntime.run_tests`).

Interactions with the Docker daemon and the filesystem are modelled by an
environment record supplying the outcome of each client call (success value
or raised exception); Python exceptions are an explicit `Except`/sum type,
and `try/except/finally` blocks become total dispatch over those outcomes,
so the embedding makes visible exactly which exceptions the source catches.
Every docker-client call the source performs is recorded in an action
trace, so that claims about "never invokes the build", "the container is
removed in every branch" and the like become statements about the trace.
-/

namespace Platform

/-! ### Character-level helpers for the source's substring tests

`run_container` classifies a generic exception as a timeout with
`"timed out" in str(e).lower() or "timeout" in str(e).lower()`.
We model Python's `in` on strings and `str.lower` at the character level.
-/

/-- Characters of `s`, lower-cased (model of Python `str.lower()`). -/
def lowerChars (s : String) : List Char :=
  s.data.map Char.toLower

/-- `needleIsPrefix n h` : the char list `n` is a prefix of `h`. -/
def needleIsPrefix : List Char → List Char → Bool
  | [], _ => true
  | _ :: _, [] => false
  | a :: as, b :: bs => a == b && needleIsPrefix as bs

/-- `containsChars needle hay` : `needle` occurs contiguously in `hay`
(model of Python `needle in hay` on strings). -/
def containsChars (needle : List Char) : List Char → Bool
  | [] => needleIsPrefix needle []
  | c :: t => needleIsPrefix needle (c :: t) || containsChars needle t

/-- Model of line 203 of `docker.py`:
`"timed out" in str(e).lower() or "timeout" in str(e).lower()`. -/
def isTimeoutMsg (msg : String) : Bool :=
  containsChars "timed out".data (lowerChars msg) ||
    containsChars "timeout".data (lowerChars msg)

/-! ### Data model: `ContainerConfig` and `ExecutionResult` -/

/-- The `ContainerConfig` dataclass of `docker.py` (lines 22-32).  In the
source it is a plain `@dataclass` with no `__post_init__`: construction
performs no validation of any field. -/
structure ContainerConfig where
  image : String
  command : List String
  timeout_seconds : Int
  memory_limit : String
  cpu_quota : Int
  network_enabled : Bool
  read_only : Bool
  pids_limit : Int
deriving DecidableEq, Repr

/-- Construction of a `ContainerConfig` with the dataclass's keyword
defaults (`timeout_seconds=30`, `memory_limit="256m"`, `cpu_quota=50000`,
`network_enabled=False`, `read_only=True`, `pids_limit=50`), overriding
only `memory_limit`; mirrors the Python call
`ContainerConfig(image=..., command=..., memory_limit=...)`.
The dataclass has no validation hook, so this is total: it cannot raise. -/
def mkContainerConfigMem (image : String) (command : List String)
    (memory_limit : String) : ContainerConfig :=
  ⟨image, command, 30, memory_limit, 50000, false, true, 50⟩

/-- The `ExecutionResult` dataclass of `runtimes/base.py` (lines 8-18). -/
structure ExecutionResult where
  success : Bool
  stdout : String
  stderr : String
  exit_code : Int
  timed_out : Bool
  execution_time_ms : Int
  memory_used_mb : ℚ
  error_message : Option String
deriving DecidableEq, Repr

/-! ### Exceptions and the docker-call environment -/

/-- Python exceptions distinguished by `run_container`'s `except` clauses:
`docker.errors.ContainerError` (caught at line 187, carrying
`exit_status`, optional `stdout`/`stderr` bytes and a message `str(e)`),
and every other exception (caught by `except Exception` at line 200,
carrying its message `str(e)`); `docker.errors.NotFound` is listed
separately because `_cleanup_container` catches it. -/
inductive PyExn where
  | containerError (exit_status : Int) (stdoutBytes stderrBytes : Option String)
      (msg : String)
  | notFound (msg : String)
  | other (msg : String)
deriving DecidableEq, Repr

/-- `str(e)` of an exception. -/
def PyExn.msgOf : PyExn → String
  | .containerError _ _ _ m => m
  | .notFound m => m
  | .other m => m

/-- Whether the exception is a `docker.errors.ContainerError`. -/
def PyExn.isContainerError : PyExn → Bool
  | .containerError _ _ _ _ => true
  | _ => false

/-- Outcome of `container.remove(force=True)` in `_cleanup_container`. -/
inductive RemoveRes where
  | ok
  | notFound
  | err (msg : String)
deriving DecidableEq, Repr

/-- Environment for one `run_container` call: the outcome of each docker
client call the source makes, the filesystem answer for
`os.path.exists(self.seccomp_profile)`, the container id, and the
wall-clock duration (`time.time()` differences are not modelled beyond
this single measured value). -/
structure RunEnv where
  profileExists : Bool
  createRes : Except PyExn Unit
  waitRes : Except PyExn Int
  stdoutRes : Except PyExn String
  stderrRes : Except PyExn String
  statsRes : Except PyExn (Option Nat)
  removeRes : RemoveRes
  containerId : String
  elapsedMs : Int
deriving Repr

/-- Replace only the removal outcome of an environment. -/
def withRemoveRes (env : RunEnv) (r : RemoveRes) : RunEnv :=
  ⟨env.profileExists, env.createRes, env.waitRes, env.stdoutRes,
    env.stderrRes, env.statsRes, r, env.containerId, env.elapsedMs⟩

/-- Docker-client calls and log statements issued by the manager, in
source order, with the arguments the source passes. -/
inductive Action where
  | createContainer (image : String) (command : List String)
      (memLimit : String) (cpuQuota : Int) (networkMode : String)
      (readOnly : Bool) (pidsLimit : Int) (capDrop : List String)
      (securityOpt : List String)
  | waitContainer (timeout : Int)
  | getLogs (stdout stderr : Bool)
  | getStats
  | stopContainer
  | killContainer
  | removeContainer (force : Bool)
  | getImage (name : String)
  | buildImage (path : String) (dockerfile : String) (tag : String)
  | removeImageCall (name : String) (force : Bool)
  | logInfo (msg : String)
  | logWarning (msg : String)
  | logError (msg : String)
deriving DecidableEq, Repr

/-! ### `run_container` (docker.py lines 122-218) -/

/-- Python truthiness of an `Optional[str]` value: `None` and the empty
string are falsy. -/
def strOptTruthy : Option String → Bool
  | none => false
  | some s => !s.isEmpty

/-- Lines 137-142: `security_opts = ["no-new-privileges"]`, then append
`seccomp=<path>` only `if self.seccomp_profile and
os.path.exists(self.seccomp_profile)`. -/
def securityOpts (seccomp_profile : Option String) (profileExists : Bool) :
    List String :=
  match seccomp_profile with
  | none => ["no-new-privileges"]
  | some p =>
      if !p.isEmpty && profileExists then
        ["no-new-privileges", "seccomp=" ++ p]
      else
        ["no-new-privileges"]

/-- The `containers.run(...)` call of lines 145-158 with the keyword
arguments the source passes. -/
def createAction (seccomp_profile : Option String) (cfg : ContainerConfig)
    (code_input : String) (profileExists : Bool) : Action :=
  Action.createContainer cfg.image (cfg.command ++ [code_input])
    cfg.memory_limit cfg.cpu_quota
    (if cfg.network_enabled then "bridge" else "none")
    cfg.read_only cfg.pids_limit ["ALL"]
    (securityOpts seccomp_profile profileExists)

/-- The `try:` block of `run_container` (lines 136-185): create the
container, wait, read both log streams, best-effort stats (the inner
bare `except: pass` of lines 170-175 swallows a stats failure), and build
the success `ExecutionResult`.  An exception raised by any step other
than the stats call aborts the block with that exception.  The second
component is the trace of docker calls issued before the block ended. -/
def tryBody (seccomp_profile : Option String) (cfg : ContainerConfig)
    (code_input : String) (env : RunEnv) :
    Except PyExn ExecutionResult × List Action :=
  let c := createAction seccomp_profile cfg code_input env.profileExists
  match env.createRes with
  | .error e => (.error e, [c])
  | .ok _ =>
    match env.waitRes with
    | .error e => (.error e, [c, Action.waitContainer cfg.timeout_seconds])
    | .ok status =>
      match env.stdoutRes with
      | .error e =>
          (.error e, [c, Action.waitContainer cfg.timeout_seconds,
            Action.getLogs true false])
      | .ok outS =>
        match env.stderrRes with
        | .error e =>
            (.error e, [c, Action.waitContainer cfg.timeout_seconds,
              Action.getLogs true false, Action.getLogs false true])
        | .ok errS =>
          let memMB : ℚ :=
            match env.statsRes with
            | .error _ => 0
            | .ok none => 0
            | .ok (some usage) => (usage : ℚ) / (1024 * 1024)
          (.ok ⟨status == 0, outS, errS, status, false, env.elapsedMs,
              memMB, none⟩,
            [c, Action.waitContainer cfg.timeout_seconds,
              Action.getLogs true false, Action.getLogs false true,
              Action.getStats])

/-- The two `except` clauses of lines 187-213: a
`docker.errors.ContainerError` becomes a non-timeout failure result with
the error's exit status and captured streams (`e.stderr` falling back to
`str(e)`); any other exception is classified by `isTimeoutMsg` on
`str(e)`. -/
def handleExn (e : PyExn) (elapsedMs : Int) : ExecutionResult :=
  match e with
  | .containerError exitStatus so se msg =>
      ⟨false, so.getD "", se.getD msg, exitStatus, false, elapsedMs, 0,
        some msg⟩
  | .notFound msg | .other msg =>
      let t := isTimeoutMsg msg
      ⟨false, "", if t then "" else msg, -1, t, elapsedMs, 0,
        some (if t then "Execution timed out" else msg)⟩

/-- `_cleanup_container` (lines 220-227): one `container.remove(force=True)`
call; a `NotFound` is swallowed (`pass  # Already removed`); any other
exception is logged as a warning.  Returns the trace of the cleanup. -/
def cleanupContainer (removeRes : RemoveRes) (containerId : String) :
    List Action :=
  match removeRes with
  | .ok => [Action.removeContainer true]
  | .notFound => [Action.removeContainer true]
  | .err msg =>
      [Action.removeContainer true,
        Action.logWarning
          ("Failed to remove container " ++ containerId ++ ": " ++ msg)]

/-- `run_container` (lines 122-218).  The `try` body runs, every exception
it raises is converted to an `ExecutionResult` by the `except` clauses
(the dispatch is total over `PyExn`, which is how "never raises for
sandbox-side failures" shows up in the embedding), and the `finally`
block cleans up whenever the container was created (`container` is still
`None` when `containers.run` itself raised).  Returns the result together
with the complete docker-call trace of the call. -/
def run_container (seccomp_profile : Option String) (cfg : ContainerConfig)
    (code_input : String) (env : RunEnv) : ExecutionResult × List Action :=
  let body := tryBody seccomp_profile cfg code_input env
  let res : ExecutionResult :=
    match body.1 with
    | .ok r => r
    | .error e => handleExn e env.elapsedMs
  let cleanup : List Action :=
    match env.createRes with
    | .ok _ => cleanupContainer env.removeRes env.containerId
    | .error _ => []
  (res, body.2 ++ cleanup)

/-! ### The image cache (`self._image_cache: Dict[str, bool]`) -/

/-- The manager's image cache, a Python `Dict[str, bool]` as an
association list with unique keys. -/
abbrev Cache := List (String × Bool)

/-- `image_name in self._image_cache`. -/
def cacheMem (c : Cache) (k : String) : Bool :=
  (c : List (String × Bool)).any (fun p => p.1 == k)

/-- `self._image_cache[k] = v` : replace the entry if the key is present,
append it otherwise. -/
def cacheInsert (c : Cache) (k : String) (v : Bool) : Cache :=
  if cacheMem c k then
    (c : List (String × Bool)).map (fun p => if p.1 == k then (k, v) else p)
  else
    (c : List (String × Bool)) ++ [(k, v)]

/-- `self._image_cache.pop(k, None)` : drop the entry for `k` if any. -/
def cachePop (c : Cache) (k : String) : Cache :=
  (c : List (String × Bool)).filter (fun p => !(p.1 == k))

/-! ### `ensure_image` (docker.py lines 76-120) -/

/-- Outcome of `self.client.images.get(image_name)`: the image exists, an
`ImageNotFound` is raised, or some other exception (e.g. an `APIError`
from the daemon) is raised. -/
inductive LookupRes where
  | found
  | notFoundImage
  | apiErr (msg : String)
deriving DecidableEq, Repr

/-- Outcome of `self.client.images.build(...)`. -/
inductive BuildRes where
  | ok
  | err (msg : String)
deriving DecidableEq, Repr

/-- Environment for one `ensure_image` call. -/
structure EnsureEnv where
  lookup : LookupRes
  build : BuildRes
deriving DecidableEq, Repr

/-- Result of an `ensure_image` call: the value returned to the caller
(`Except.error` when an exception escapes the Python function), the
cache afterwards, and the docker-call trace. -/
structure EnsureOut where
  result : Except String Bool
  cache : Cache
  trace : List Action

/-- `ensure_image` (lines 76-120).  Faithful points: the cache check of
lines 91-92 precedes any client call; the `try` of line 94 only has an
`except ImageNotFound` clause, so any other exception raised by
`images.get` escapes the function; `if not dockerfile_path` (line 101) is
Python truthiness, so `None` and `""` both return `False` without a
build; the inner `try` around the build catches every exception; no path
validation of any kind is performed on `dockerfile_path` or
`build_context` before the build is invoked. -/
def ensure_image (cache : Cache) (image_name : String)
    (dockerfile_path : Option String) (build_context : String)
    (force_rebuild : Bool) (env : EnsureEnv) : EnsureOut :=
  if !force_rebuild && cacheMem cache image_name then
    ⟨.ok true, cache, []⟩
  else
    match env.lookup with
    | .found =>
        ⟨.ok true, cacheInsert cache image_name true,
          [Action.getImage image_name,
            Action.logInfo ("Image " ++ image_name ++ " found in cache")]⟩
    | .apiErr msg =>
        ⟨.error msg, cache, [Action.getImage image_name]⟩
    | .notFoundImage =>
        if !(strOptTruthy dockerfile_path) then
          ⟨.ok false, cache,
            [Action.getImage image_name,
              Action.logError ("Image " ++ image_name ++
                " not found and no Dockerfile provided")]⟩
        else
          let dfp := dockerfile_path.getD ""
          match env.build with
          | .ok =>
              ⟨.ok true, cacheInsert cache image_name true,
                [Action.getImage image_name,
                  Action.buildImage build_context dfp image_name,
                  Action.logInfo ("Successfully built image " ++ image_name)]⟩
          | .err msg =>
              ⟨.ok false, cache,
                [Action.getImage image_name,
                  Action.buildImage build_context dfp image_name,
                  Action.logError ("Failed to build image " ++ image_name ++
                    ": " ++ msg)]⟩

/-! ### `remove_image` (docker.py lines 261-282) -/

/-- Outcome of `self.client.images.remove(image_name, force=force)`. -/
inductive RemoveImageRes where
  | ok
  | notFoundImage
  | err (msg : String)
deriving DecidableEq, Repr

/-- Result of a `remove_image` call. -/
structure RemoveImageOut where
  result : Bool
  cache : Cache
  trace : List Action

/-- `remove_image` (lines 261-282): the cache entry is popped only after
a successful removal (line 274 runs only when line 273 did not raise);
`ImageNotFound` and any other exception leave the cache untouched and
return `False`. -/
def remove_image (cache : Cache) (image_name : String) (force : Bool)
    (env : RemoveImageRes) : RemoveImageOut :=
  match env with
  | .ok =>
      ⟨true, cachePop cache image_name,
        [Action.removeImageCall image_name force,
          Action.logInfo ("Removed image " ++ image_name)]⟩
  | .notFoundImage =>
      ⟨false, cache,
        [Action.removeImageCall image_name force,
          Action.logWarning ("Image " ++ image_name ++ " not found")]⟩
  | .err msg =>
      ⟨false, cache,
        [Action.removeImageCall image_name force,
          Action.logError ("Failed to remove image " ++ image_name ++
            ": " ++ msg)]⟩

/-! ### `DockerManager.__init__` (docker.py lines 46-74) -/

/-- The state a constructed `DockerManager` holds (besides the client
handle): the stored seccomp-profile path and the image cache. -/
structure Manager where
  seccomp_profile : Option String
  image_cache : Cache

/-- The default profile location used when no path is passed:
`Path(__file__).parent.parent.parent / "docker" / "seccomp-profile.json"`. -/
def defaultSeccompPath : String :=
  "src/docker/seccomp-profile.json"

/-- `DockerManager.__init__` (lines 46-74).  `dockerAvailable` models the
guard on the docker package availability, `pingOk` the
`self.client.ping()` probe, and
`defaultProfileExists` the `profile_path.exists()` test of line 69 (only
consulted when no profile path is passed).  The source stores a
caller-supplied `seccomp_profile` path verbatim: it never opens, parses
or validates the file, so construction succeeds whatever the file
contains — or whether it exists at all. -/
def dockerManagerInit (seccomp_profile : Option String)
    (dockerAvailable pingOk defaultProfileExists : Bool) :
    Except String Manager :=
  if !dockerAvailable then
    .error "docker package not installed. Run: pip install docker"
  else if !pingOk then
    .error "Failed to connect to Docker daemon"
  else
    match seccomp_profile with
    | none =>
        .ok ⟨if defaultProfileExists then some defaultSeccompPath else none, []⟩
    | some p => .ok ⟨some p, []⟩

/-! ### Base64 (the transport used by `PythonRuntime.run_tests`)

`python.py` line 92 encodes the combined source with
`base64.b64encode(combined_code.encode("utf-8")).decode("ascii")` and the
wrapper decodes it inside the sandbox with `base64.b64decode`.  Byte
strings are modelled as `List Nat` with entries `< 256`. -/

/-- The standard base64 alphabet, in value order. -/
def b64Alphabet : List Char :=
  "ABCDEFGHIJKLMNOPQRSTUVWXYZabcdefghijklmnopqrstuvwxyz0123456789+/".data

/-- The character for a 6-bit value. -/
def b64Char (n : Nat) : Char :=
  b64Alphabet.getD n 'A'

/-- The 6-bit value of an alphabet character. -/
def b64Value (c : Char) : Nat :=
  b64Alphabet.indexOf c

/-- Standard base64 encoding of a byte string, with `=` padding. -/
def b64encode : List Nat → List Char
  | [] => []
  | [a] =>
      [b64Char (a / 4), b64Char (a % 4 * 16), '=', '=']
  | [a, b] =>
      [b64Char (a / 4), b64Char (a % 4 * 16 + b / 16), b64Char (b % 16 * 4),
        '=']
  | a :: b :: c :: rest =>
      b64Char (a / 4) :: b64Char (a % 4 * 16 + b / 16) ::
        b64Char (b % 16 * 4 + c / 64) :: b64Char (c % 64) :: b64encode rest

/-- Standard base64 decoding (model of `base64.b64decode` on well-formed
input: four characters decode to three bytes, with `=` padding cutting
the final quantum to one or two bytes). -/
def b64decode : List Char → List Nat
  | a :: b :: c :: d :: rest =>
      if c = '=' then
        [b64Value a * 4 + b64Value b / 16]
      else if d = '=' then
        [b64Value a * 4 + b64Value b / 16, b64Value b % 16 * 16 + b64Value c / 4]
      else
        (b64Value a * 4 + b64Value b / 16) ::
          (b64Value b % 16 * 16 + b64Value c / 4) ::
          (b64Value c % 4 * 64 + b64Value d) :: b64decode rest
  | _ => []

/-! ### `PythonRuntime.run_tests` (python.py lines 35-119) -/

/-- Line 56: `combined_code = f"{code}\n\n{test_code}"`, at the byte level
(`"\n\n"` is the two bytes 10, 10). -/
def combinedCode (code test_code : List Nat) : List Nat :=
  code ++ [10, 10] ++ test_code

/-- The text of the `safe_wrapper` f-string (lines 94-118) before the
interpolated `{encoded_code}`: everything up to and including
`encoded = "`. -/
def wrapperPre : List Char :=
  ("\nimport sys\nimport tempfile\nimport os\nimport base64\n\n# Decode code from base64 (prevents injection via quote escaping)\nencoded = \"").data

/-- The text of the `safe_wrapper` f-string after the interpolated
`{encoded_code}`: the closing quote of the `encoded` literal, the
decode, the temp-file write, and the `try: pytest / finally: remove`
tail. -/
def wrapperPost : List Char :=
  ("\"\ntest_code = base64.b64decode(encoded).decode(\x27utf-8\x27)\n\n# Create temporary test file\nwith tempfile.NamedTemporaryFile(mode=\x27w\x27, suffix=\x27.py\x27, delete=False) as f:\n    test_file = f.name\n    f.write(test_code)\n\ntry:\n    # Run pytest\n    import pytest\n    exit_code = pytest.main([test_file, \x27-v\x27, \x27--tb=short\x27])\n    sys.exit(exit_code)\nfinally:\n    # Cleanup\n    if os.path.exists(test_file):\n        os.remove(test_file)\n").data

/-- The `safe_wrapper` script `run_tests` hands to `self.run` (line 119):
the fixed wrapper text with `base64.b64encode((code + "\n\n" +
test_code).encode("utf-8"))` interpolated between `encoded = "` and the
closing `"`.  This is the only place any function of the untrusted text
enters the script. -/
def run_tests_payload (code test_code : List Nat) : List Char :=
  wrapperPre ++ b64encode (combinedCode code test_code) ++ wrapperPost

/-- Steps the wrapper script performs inside the sandbox. -/
inductive WrapperStep where
  | writeTempFile (content : List Nat)
  | runPytest (file : List Nat)
  | removeTempFile
deriving DecidableEq, Repr

/-- Execution of the wrapper script inside the sandbox, as written at
lines 94-118: decode the embedded base64 literal, write the decoded text
to a fresh temporary file, then `try:` run pytest on that file (whose
outcome — an exit code or a raised exception — is the environment
parameter) and `finally:` remove the temporary file.  Returns the
script's outcome and the ordered step trace. -/
def wrapperRun (encoded : List Char) (pytestRes : Except String Int) :
    Except String Int × List WrapperStep :=
  let content := b64decode encoded
  let steps :=
    [WrapperStep.writeTempFile content, WrapperStep.runPytest content,
      WrapperStep.removeTempFile]
  match pytestRes with
  | .ok exitCode => (.ok exitCode, steps)
  | .error e => (.error e, steps)

/-! ### The cache-correctness invariant (claim C10) -/

/-- Every entry the image cache holds maps to `true`. -/
def cacheAllTrue (c : Cache) : Prop :=
  ∀ p ∈ (c : List (String × Bool)), p.2 = true

/-! ### Concrete inputs used to instantiate the theorems -/

/-- The Python runtime's container configuration, as `DockerRuntime.run`
builds it from `PYTHON_CONFIG` (python.py lines 8-17, docker.py
lines 385-394). -/
def pythonDemoConfig : ContainerConfig :=
  ⟨"assistant-python:latest", ["python", "-c"], 30, "256m", 50000, false,
    true, 50⟩

/-- `ContainerConfig(image="python", command=["python"],
memory_limit="256mb")` — the invalid-suffix construction of the claim. -/
def c4Config : ContainerConfig :=
  mkContainerConfigMem "python" ["python"] "256mb"

/-- A run in which every docker call succeeds and the payload exits 0. -/
def envCompleted : RunEnv :=
  ⟨false, .ok (), .ok 0, .ok "Hello, World!\n", .ok "", .ok (some 1048576),
    RemoveRes.ok, "cid-ok", 42⟩

/-- A run whose wait raises past the bound: the exception message is what
`docker-py` produces when `container.wait(timeout=2)` exceeds its read
timeout. -/
def envTimedOut : RunEnv :=
  ⟨false, .ok (), .error (.other
      "UnixHTTPConnectionPool(host=localhost, port=None): Read timed out. (read timeout=2)"),
    .ok "", .ok "", .ok none, RemoveRes.ok, "cid-timeout", 2100⟩

/-- A run in which the container runs but fetching its stdout log throws,
and the later forced removal fails too. -/
def envLogsThrow : RunEnv :=
  ⟨false, .ok (), .ok 0, .error (.other "log fetch failed"), .ok "",
    .ok none, RemoveRes.err "daemon busy", "cid-logs", 100⟩

/-- First `ensure_image` call of the idempotence scenario: the image is
not known to the daemon and the build succeeds. -/
def envBuildOk : EnsureEnv := ⟨LookupRes.notFoundImage, BuildRes.ok⟩

/-- Environment for a second call, poisoned so that any contact with the
daemon would be visible: the lookup raises and the build fails. -/
def envDaemonPoisoned : EnsureEnv :=
  ⟨LookupRes.apiErr "daemon must not be contacted", BuildRes.err "no build"⟩

/-- A lookup that raises an `APIError` (daemon failure). -/
def envLookupApiErr : EnsureEnv :=
  ⟨LookupRes.apiErr "500 Server Error: Internal Server Error", BuildRes.ok⟩

/-- Bytes of the payload `x=1` (the code under test in the injection
scenario). -/
def c6code : List Nat := [120, 61, 49]

/-- Bytes of a hostile `test_code`: a double quote — the delimiter that
closes the wrapper's `encoded = "..."` literal — a newline, and the
wrapper's own encoding marker `encoded = "` as literal text. -/
def c6test : List Nat :=
  [34, 10, 101, 110, 99, 111, 100, 101, 100, 32, 61, 32, 34]

/-! ## Helper lemmas -/

theorem b64Value_b64Char : ∀ n, n < 64 → b64Value (b64Char n) = n := by decide

theorem b64Char_ne_pad : ∀ n, n < 64 → b64Char n ≠ '=' := by decide

theorem b64Char_mem_alphabet : ∀ n, n < 64 → b64Char n ∈ b64Alphabet := by
  decide

theorem b64Char_mem (n : Nat) : b64Char n ∈ b64Alphabet := by
  rcases lt_or_ge n 64 with h | h
  · exact b64Char_mem_alphabet n h
  · unfold b64Char
    rw [List.getD_eq_default]
    · decide
    · have : b64Alphabet.length = 64 := by decide
      omega

/-- Base64 decoding inverts base64 encoding on byte strings. -/
theorem b64_roundtrip : ∀ (l : List Nat), (∀ b ∈ l, b < 256) →
    b64decode (b64encode l) = l
  | [], _ => rfl
  | [a], h => by
      have ha : a < 256 := h a (by simp)
      have e1 := b64Value_b64Char (a / 4) (by omega)
      have e2 := b64Value_b64Char (a % 4 * 16) (by omega)
      simp [b64encode, b64decode, e1, e2]
      omega
  | [a, b], h => by
      have ha : a < 256 := h a (by simp)
      have hb : b < 256 := h b (by simp)
      have h3 : b64Char (b % 16 * 4) ≠ '=' := b64Char_ne_pad _ (by omega)
      have e1 := b64Value_b64Char (a / 4) (by omega)
      have e2 := b64Value_b64Char (a % 4 * 16 + b / 16) (by omega)
      have e3 := b64Value_b64Char (b % 16 * 4) (by omega)
      simp [b64encode, b64decode, h3, e1, e2, e3]
      omega
  | a :: b :: c :: rest, h => by
      have ha : a < 256 := h a (by simp)
      have hb : b < 256 := h b (by simp)
      have hc : c < 256 := h c (by simp)
      have ih := b64_roundtrip rest (fun x hx => h x (by simp [hx]))
      have h3 : b64Char (b % 16 * 4 + c / 64) ≠ '=' := b64Char_ne_pad _ (by omega)
      have h4 : b64Char (c % 64) ≠ '=' := b64Char_ne_pad _ (by omega)
      have e1 := b64Value_b64Char (a / 4) (by omega)
      have e2 := b64Value_b64Char (a % 4 * 16 + b / 16) (by omega)
      have e3 := b64Value_b64Char (b % 16 * 4 + c / 64) (by omega)
      have e4 := b64Value_b64Char (c % 64) (by omega)
      simp [b64encode, b64decode, h3, h4, e1, e2, e3, e4, ih]
      omega

/-- Every character base64 encoding emits is an alphabet character or the
padding character. -/
theorem b64encode_chars : ∀ (l : List Nat), ∀ ch ∈ b64encode l,
    ch ∈ b64Alphabet ∨ ch = '='
  | [], ch, hch => by simp [b64encode] at hch
  | [a], ch, hch => by
      simp only [b64encode, List.mem_cons, List.not_mem_nil, or_false] at hch
      rcases hch with h | h | h | h
      · exact Or.inl (h ▸ b64Char_mem _)
      · exact Or.inl (h ▸ b64Char_mem _)
      · exact Or.inr h
      · exact Or.inr h
  | [a, b], ch, hch => by
      simp only [b64encode, List.mem_cons, List.not_mem_nil, or_false] at hch
      rcases hch with h | h | h | h
      · exact Or.inl (h ▸ b64Char_mem _)
      · exact Or.inl (h ▸ b64Char_mem _)
      · exact Or.inl (h ▸ b64Char_mem _)
      · exact Or.inr h
  | a :: b :: c :: rest, ch, hch => by
      simp only [b64encode, List.mem_cons] at hch
      rcases hch with h | h | h | h | h
      · exact Or.inl (h ▸ b64Char_mem _)
      · exact Or.inl (h ▸ b64Char_mem _)
      · exact Or.inl (h ▸ b64Char_mem _)
      · exact Or.inl (h ▸ b64Char_mem _)
      · exact b64encode_chars rest ch h

theorem alphabet_no_quote : ∀ c ∈ b64Alphabet, c ≠ '"' ∧ c ≠ '\n' := by
  decide

/-- The cleanup helper always issues the forced removal. -/
theorem cleanup_has_remove (r : RemoveRes) (cid : String) :
    Action.removeContainer true ∈ cleanupContainer r cid := by
  cases r <;> simp [cleanupContainer]

/-- The cleanup helper issues exactly one removal and never a stop/kill. -/
theorem cleanup_shape (r : RemoveRes) (cid : String) :
    (cleanupContainer r cid).count (Action.removeContainer true) = 1 ∧
    Action.stopContainer ∉ cleanupContainer r cid ∧
    Action.killContainer ∉ cleanupContainer r cid := by
  cases r <;> simp [cleanupContainer, List.count_cons]

/-- Inserting a key makes it a member of the cache. -/
theorem cacheMem_cacheInsert (c : Cache) (k : String) (v : Bool) :
    cacheMem (cacheInsert c k v) k = true := by
  unfold cacheInsert
  by_cases h : cacheMem c k = true
  · rw [if_pos h]
    unfold cacheMem at h ⊢
    rw [List.any_eq_true] at h ⊢
    obtain ⟨p, hp, hpk⟩ := h
    exact ⟨(k, v), List.mem_map.mpr ⟨p, hp, by simp [hpk]⟩, by simp⟩
  · rw [if_neg h]
    unfold cacheMem
    simp

/-- Inserting `true` preserves the all-`true` invariant. -/
theorem cacheAllTrue_insert (c : Cache) (k : String)
    (h : cacheAllTrue c) : cacheAllTrue (cacheInsert c k true) := by
  unfold cacheInsert
  by_cases hm : cacheMem c k = true
  · rw [if_pos hm]
    intro p hp
    obtain ⟨q, hq, hqe⟩ := List.mem_map.mp hp
    by_cases hqk : q.1 == k
    · simp [hqk] at hqe
      simp [← hqe]
    · simp [hqk] at hqe
      exact hqe ▸ h q hq
  · rw [if_neg hm]
    intro p hp
    rcases List.mem_append.mp hp with h1 | h1
    · exact h p h1
    · simp at h1
      simp [h1]

/-- Removing a key preserves the all-`true` invariant. -/
theorem cacheAllTrue_pop (c : Cache) (k : String)
    (h : cacheAllTrue c) : cacheAllTrue (cachePop c k) := by
  intro p hp
  exact h p (List.mem_of_mem_filter hp)

/-! ## Claim theorems -/

/-- C1: for every configuration, payload and environment (success,
container error, timeout, or any other failure — including a log or
stats retrieval that throws), `run_container` produces its single
`ExecutionResult` (the embedding is a total function: the two `except`
clauses cover every `PyExn`), and whenever the container was created the
trace contains the forced removal; the returned result does not depend
on the removal outcome, a `NotFound` removal error is swallowed
producing no log entry, and any other removal error only adds a warning
log entry. -/
theorem run_container_always_cleans_up (sp : Option String)
    (cfg : ContainerConfig) (input : String) (env : RunEnv)
    (hc : env.createRes = .ok ()) :
    Action.removeContainer true ∈ (run_container sp cfg input env).2 ∧
    (∀ r, (run_container sp cfg input (withRemoveRes env r)).1 =
        (run_container sp cfg input env).1) ∧
    cleanupContainer RemoveRes.notFound env.containerId =
      [Action.removeContainer true] ∧
    ∀ msg, cleanupContainer (RemoveRes.err msg) env.containerId =
      [Action.removeContainer true,
        Action.logWarning ("Failed to remove container " ++
          env.containerId ++ ": " ++ msg)] := by
  refine ⟨?_, ?_, rfl, fun msg => rfl⟩
  · have htr : (run_container sp cfg input env).2 =
        (tryBody sp cfg input env).2 ++
          cleanupContainer env.removeRes env.containerId := by
      simp [run_container, hc]
    rw [htr]
    exact List.mem_append_right _ (cleanup_has_remove _ _)
  · intro r
    cases env
    rfl

theorem run_container_always_cleans_up_witness :
    envLogsThrow.createRes = .ok () ∧
    (Action.removeContainer true ∈
        (run_container none pythonDemoConfig "print(1)" envLogsThrow).2 ∧
      (∀ r, (run_container none pythonDemoConfig "print(1)"
          (withRemoveRes envLogsThrow r)).1 =
        (run_container none pythonDemoConfig "print(1)" envLogsThrow).1) ∧
      cleanupContainer RemoveRes.notFound envLogsThrow.containerId =
        [Action.removeContainer true] ∧
      ∀ msg, cleanupContainer (RemoveRes.err msg) envLogsThrow.containerId =
        [Action.removeContainer true,
          Action.logWarning ("Failed to remove container " ++
            envLogsThrow.containerId ++ ": " ++ msg)]) :=
  ⟨rfl, run_container_always_cleans_up none pythonDemoConfig "print(1)"
    envLogsThrow rfl⟩

/-- C2 (code bug): constructing the manager with a seccomp-profile path
never opens, parses or validates the file — construction with a missing
(equally: unparseable) profile file succeeds and returns a manager, and
a later run with that profile path silently drops the seccomp option
(`security_opt` is only `no-new-privileges`) while still creating the
container; the repository's own tests
(`tests/test_runtime_security.py::test_seccomp_missing_profile_raises_error`
etc.) require construction to raise instead. -/
theorem manager_init_skips_profile_validation :
    dockerManagerInit (some "/tmp/missing-profile.json") true true false =
      .ok ⟨some "/tmp/missing-profile.json", []⟩ ∧
    securityOpts (some "/tmp/missing-profile.json") false =
      ["no-new-privileges"] ∧
    (run_container (some "/tmp/missing-profile.json") pythonDemoConfig
        "print(1)" envCompleted).2.head? =
      some (Action.createContainer "assistant-python:latest"
        ["python", "-c", "print(1)"] "256m" 50000 "none" true 50 ["ALL"]
        ["no-new-privileges"]) :=
  ⟨rfl, rfl, rfl⟩

/-- C3 (code bug): `ensure_image` performs no validation of
`dockerfile_path` — with `dockerfile_path="../../etc/passwd"` and an
image the daemon does not know, the build is invoked (with the traversal
path passed through verbatim) and the call returns `true`; the
repository's own tests
(`tests/test_path_validation.py::test_path_traversal_in_dockerfile_returns_false`)
require `false` with no build attempt. -/
theorem ensure_image_builds_on_traversal_path :
    (ensure_image [] "test-image" (some "../../etc/passwd") "docker" false
        envBuildOk).result = .ok true ∧
    Action.buildImage "docker" "../../etc/passwd" "test-image" ∈
      (ensure_image [] "test-image" (some "../../etc/passwd") "docker" false
        envBuildOk).trace := by
  refine ⟨rfl, ?_⟩
  have h : "../../etc/passwd".isEmpty = false := rfl
  simp [ensure_image, envBuildOk, cacheMem, strOptTruthy, h]

/-- C4 (code bug): `ContainerConfig` is a plain dataclass with no
`__post_init__`: construction with `memory_limit="256mb"` (invalid
suffix per the claimed `^\d+[kmg]$` rule) succeeds, stores the value
verbatim, and `run_container` passes it straight to the
`containers.run` call — the invalid configuration does reach the
container runtime; the repository's own tests
(`tests/test_validation.py::test_invalid_memory_format_rejected`)
require a `ValueError` at construction. -/
theorem container_config_no_validation :
    c4Config = ⟨"python", ["python"], 30, "256mb", 50000, false, true, 50⟩ ∧
    (run_container none c4Config "print(1)" envCompleted).2.head? =
      some (Action.createContainer "python" ["python", "print(1)"] "256mb"
        50000 "none" true 50 ["ALL"] ["no-new-privileges"]) :=
  ⟨rfl, rfl⟩

/-- C5: a completed wait (all log reads succeeding) yields
`timed_out=false` and `success = (exit_code == 0)` with the wait's
status code as `exit_code`; a failure raised by the body that is not a
`ContainerError` and whose message indicates the wait bound was exceeded
(the source's substring test on `str(e).lower()`) yields
`success=false`, `timed_out=true`, `exit_code=-1`,
`error_message="Execution timed out"`. -/
theorem run_container_timeout_classification (sp : Option String)
    (cfg : ContainerConfig) (input : String) (env1 env2 : RunEnv)
    (s : Int) (outS errS : String) (e : PyExn)
    (h1c : env1.createRes = .ok ()) (h1w : env1.waitRes = .ok s)
    (h1o : env1.stdoutRes = .ok outS) (h1e : env1.stderrRes = .ok errS)
    (h2 : (tryBody sp cfg input env2).1 = .error e)
    (h2c : e.isContainerError = false)
    (h2t : isTimeoutMsg e.msgOf = true) :
    ((run_container sp cfg input env1).1.timed_out = false ∧
      (run_container sp cfg input env1).1.success = (s == 0) ∧
      (run_container sp cfg input env1).1.exit_code = s) ∧
    ((run_container sp cfg input env2).1.success = false ∧
      (run_container sp cfg input env2).1.timed_out = true ∧
      (run_container sp cfg input env2).1.exit_code = -1 ∧
      (run_container sp cfg input env2).1.error_message =
        some "Execution timed out") := by
  constructor
  · have hb : (tryBody sp cfg input env1).1 =
        .ok ⟨s == 0, outS, errS, s, false, env1.elapsedMs,
          (match env1.statsRes with
            | .error _ => 0
            | .ok none => 0
            | .ok (some usage) => (usage : ℚ) / (1024 * 1024)), none⟩ := by
      simp [tryBody, h1c, h1w, h1o, h1e]
    have hres : (run_container sp cfg input env1).1 =
        ⟨s == 0, outS, errS, s, false, env1.elapsedMs,
          (match env1.statsRes with
            | .error _ => 0
            | .ok none => 0
            | .ok (some usage) => (usage : ℚ) / (1024 * 1024)), none⟩ := by
      simp [run_container, hb]
    rw [hres]
    exact ⟨rfl, rfl, rfl⟩
  · have hres : (run_container sp cfg input env2).1 =
        handleExn e env2.elapsedMs := by
      simp [run_container, h2]
    rw [hres]
    cases e with
    | containerError a b c d => simp [PyExn.isContainerError] at h2c
    | notFound m =>
        simp only [PyExn.msgOf] at h2t
        simp [handleExn, h2t]
    | other m =>
        simp only [PyExn.msgOf] at h2t
        simp [handleExn, h2t]

theorem run_container_timeout_classification_witness :
    envCompleted.createRes = .ok () ∧ envCompleted.waitRes = .ok 0 ∧
    envCompleted.stdoutRes = .ok "Hello, World!\n" ∧
    envCompleted.stderrRes = .ok "" ∧
    (tryBody none pythonDemoConfig "import time; time.sleep(10)"
        envTimedOut).1 = .error (.other
      "UnixHTTPConnectionPool(host=localhost, port=None): Read timed out. (read timeout=2)") ∧
    (PyExn.other
      "UnixHTTPConnectionPool(host=localhost, port=None): Read timed out. (read timeout=2)").isContainerError = false ∧
    isTimeoutMsg (PyExn.other
      "UnixHTTPConnectionPool(host=localhost, port=None): Read timed out. (read timeout=2)").msgOf = true ∧
    (((run_container none pythonDemoConfig "import time; time.sleep(10)" envCompleted).1.timed_out = false ∧
      (run_container none pythonDemoConfig "import time; time.sleep(10)" envCompleted).1.success = ((0 : Int) == 0) ∧
      (run_container none pythonDemoConfig "import time; time.sleep(10)" envCompleted).1.exit_code = 0) ∧
    ((run_container none pythonDemoConfig "import time; time.sleep(10)" envTimedOut).1.success = false ∧
      (run_container none pythonDemoConfig "import time; time.sleep(10)" envTimedOut).1.timed_out = true ∧
      (run_container none pythonDemoConfig "import time; time.sleep(10)" envTimedOut).1.exit_code = -1 ∧
      (run_container none pythonDemoConfig "import time; time.sleep(10)" envTimedOut).1.error_message =
        some "Execution timed out")) :=
  ⟨rfl, rfl, rfl, rfl, rfl, rfl, by decide,
    run_container_timeout_classification none pythonDemoConfig "import time; time.sleep(10)"
      envCompleted envTimedOut 0 "Hello, World!\n" "" _ rfl rfl rfl rfl rfl
      rfl (by decide)⟩

/-! ## Further helper lemmas (trace shapes, cache facts) -/

/-- The `try` body never issues a removal, stop or kill. -/
theorem tryBody_actions (sp : Option String) (cfg : ContainerConfig)
    (input : String) (env : RunEnv) :
    Action.removeContainer true ∉ (tryBody sp cfg input env).2 ∧
    Action.stopContainer ∉ (tryBody sp cfg input env).2 ∧
    Action.killContainer ∉ (tryBody sp cfg input env).2 := by
  obtain ⟨pe, cr, wr, so, se, st, rm, cid, ms⟩ := env
  cases cr <;> cases wr <;> cases so <;> cases se <;>
    simp [tryBody, createAction]

/-- A successfully constructed manager starts with an empty image cache. -/
theorem dockerManagerInit_cache_empty (sp : Option String)
    (da po dpe : Bool) (m : Manager)
    (hinit : dockerManagerInit sp da po dpe = .ok m) :
    m.image_cache = [] := by
  cases da with
  | false => simp [dockerManagerInit] at hinit
  | true =>
    cases po with
    | false => simp [dockerManagerInit] at hinit
    | true =>
      cases sp with
      | none =>
          simp [dockerManagerInit] at hinit
          rw [← hinit]
      | some p =>
          simp [dockerManagerInit] at hinit
          rw [← hinit]

/-- `ensure_image` preserves the all-`true` cache invariant: the only
insertions (lines 97 and 115) store `true`, and failure paths leave the
cache untouched. -/
theorem ensure_image_cache_preserves (cache : Cache) (n : String)
    (dfp : Option String) (bc : String) (fr : Bool) (env : EnsureEnv)
    (h : cacheAllTrue cache) :
    cacheAllTrue ((ensure_image cache n dfp bc fr env).cache) := by
  rcases env with ⟨lk, bd⟩
  by_cases hm : (!fr && cacheMem cache n) = true
  · simpa [ensure_image, hm] using h
  · cases lk with
    | found => simpa [ensure_image, hm] using cacheAllTrue_insert cache n h
    | apiErr m => simpa [ensure_image, hm] using h
    | notFoundImage =>
        by_cases ht : strOptTruthy dfp = true
        · cases bd with
          | ok =>
              simpa [ensure_image, hm, ht] using cacheAllTrue_insert cache n h
          | err m => simpa [ensure_image, hm, ht] using h
        · rw [Bool.not_eq_true] at ht
          simpa [ensure_image, hm, ht] using h

/-- `remove_image` preserves the all-`true` cache invariant: it only ever
pops an entry (line 274), and only after a successful removal. -/
theorem remove_image_cache_preserves (cache : Cache) (n : String)
    (f : Bool) (renv : RemoveImageRes) (h : cacheAllTrue cache) :
    cacheAllTrue ((remove_image cache n f renv).cache) := by
  cases renv with
  | ok => simpa [remove_image] using cacheAllTrue_pop cache n h
  | notFoundImage => simpa [remove_image] using h
  | err m => simpa [remove_image] using h

/-- A `true`-returning `ensure_image` leaves the image name in the cache. -/
theorem ensure_image_ok_mem (cache : Cache) (n : String)
    (dfp : Option String) (bc : String) (fr : Bool) (env : EnsureEnv)
    (h : (ensure_image cache n dfp bc fr env).result = .ok true) :
    cacheMem ((ensure_image cache n dfp bc fr env).cache) n = true := by
  rcases env with ⟨lk, bd⟩
  by_cases hm : (!fr && cacheMem cache n) = true
  · have hmem : cacheMem cache n = true := by
      cases hcm : cacheMem cache n
      · rw [hcm, Bool.and_false] at hm
        exact absurd hm (by simp)
      · rfl
    have hfr : fr = false := by
      cases hfr : fr
      · rfl
      · rw [hfr] at hm
        simp at hm
    simp [ensure_image, hfr, hmem]
  · cases lk with
    | found => simp [ensure_image, hm, cacheMem_cacheInsert]
    | apiErr m => simp [ensure_image, hm] at h
    | notFoundImage =>
        by_cases ht : strOptTruthy dfp = true
        · cases bd with
          | ok => simp [ensure_image, hm, ht, cacheMem_cacheInsert]
          | err m => simp [ensure_image, hm, ht] at h
        · rw [Bool.not_eq_true] at ht
          simp [ensure_image, hm, ht] at h

/-! ## Claim theorems (continued) -/

/-- C6: `run_tests` embeds the combined source into the wrapper script
only as its base64 encoding (every embedded character is an alphabet or
padding character — in particular never the `"` that delimits the
wrapper's `encoded` literal and never a newline), the sandbox-side
wrapper decodes it back to exactly the intended combined source, writes
it to the temporary test file handed to pytest, and removes that file
whatever the test outcome (exit code or raised exception). -/
theorem run_tests_base64_transport (code test_code : List Nat)
    (pytestRes : Except String Int)
    (hcode : ∀ b ∈ code, b < 256) (htest : ∀ b ∈ test_code, b < 256) :
    run_tests_payload code test_code =
      wrapperPre ++ b64encode (combinedCode code test_code) ++ wrapperPost ∧
    (∀ ch ∈ b64encode (combinedCode code test_code),
      ch ∈ b64Alphabet ∨ ch = '=') ∧
    (∀ ch ∈ b64encode (combinedCode code test_code), ch ≠ '"' ∧ ch ≠ '\n') ∧
    (wrapperRun (b64encode (combinedCode code test_code)) pytestRes).2 =
      [WrapperStep.writeTempFile (combinedCode code test_code),
        WrapperStep.runPytest (combinedCode code test_code),
        WrapperStep.removeTempFile] := by
  have hcomb : ∀ b ∈ combinedCode code test_code, b < 256 := by
    intro b hb
    unfold combinedCode at hb
    rcases List.mem_append.mp hb with h1 | h1
    · rcases List.mem_append.mp h1 with h2 | h2
      · exact hcode b h2
      · simp at h2
        omega
    · exact htest b h1
  refine ⟨rfl, b64encode_chars _, ?_, ?_⟩
  · intro ch hch
    rcases b64encode_chars _ ch hch with h | h
    · exact alphabet_no_quote ch h
    · subst h
      exact ⟨by decide, by decide⟩
  · cases pytestRes <;> simp [wrapperRun, b64_roundtrip _ hcomb]

theorem run_tests_base64_transport_witness :
    (∀ b ∈ c6code, b < 256) ∧ (∀ b ∈ c6test, b < 256) ∧
    (run_tests_payload c6code c6test =
      wrapperPre ++ b64encode (combinedCode c6code c6test) ++ wrapperPost ∧
    (∀ ch ∈ b64encode (combinedCode c6code c6test),
      ch ∈ b64Alphabet ∨ ch = '=') ∧
    (∀ ch ∈ b64encode (combinedCode c6code c6test), ch ≠ '"' ∧ ch ≠ '\n') ∧
    (wrapperRun (b64encode (combinedCode c6code c6test))
        (.error "pytest raised")).2 =
      [WrapperStep.writeTempFile (combinedCode c6code c6test),
        WrapperStep.runPytest (combinedCode c6code c6test),
        WrapperStep.removeTempFile]) :=
  ⟨by decide, by decide,
    run_tests_base64_transport c6code c6test (.error "pytest raised")
      (by decide) (by decide)⟩

/-- C7 is false of the code at this timed-out run: cleanup is the single
`remove(force=True)` call — the trace holds no stop and no kill action,
and exactly one removal. -/
theorem timeout_cleanup_no_separate_stop :
    (run_container none pythonDemoConfig "import time; time.sleep(10)"
        envTimedOut).1.timed_out = true ∧
    Action.stopContainer ∉
      (run_container none pythonDemoConfig "import time; time.sleep(10)"
        envTimedOut).2 ∧
    Action.killContainer ∉
      (run_container none pythonDemoConfig "import time; time.sleep(10)"
        envTimedOut).2 ∧
    (run_container none pythonDemoConfig "import time; time.sleep(10)"
        envTimedOut).2.count (Action.removeContainer true) = 1 := by
  decide

/-- C7 (amended): whenever the container was created — in particular on a
timed-out run — cleanup before returning is exactly one forced removal
(`remove(force=True)`), with no separate stop or kill step; the source
relies on the forced removal alone to terminate a still-running
container. -/
theorem timeout_cleanup_single_forced_removal (sp : Option String)
    (cfg : ContainerConfig) (input : String) (env : RunEnv)
    (hc : env.createRes = .ok ()) :
    (run_container sp cfg input env).2.count (Action.removeContainer true) =
      1 ∧
    Action.stopContainer ∉ (run_container sp cfg input env).2 ∧
    Action.killContainer ∉ (run_container sp cfg input env).2 := by
  have htr : (run_container sp cfg input env).2 =
      (tryBody sp cfg input env).2 ++
        cleanupContainer env.removeRes env.containerId := by
    simp [run_container, hc]
  obtain ⟨hb1, hb2, hb3⟩ := tryBody_actions sp cfg input env
  obtain ⟨hk1, hk2, hk3⟩ := cleanup_shape env.removeRes env.containerId
  rw [htr]
  refine ⟨?_, ?_, ?_⟩
  · rw [List.count_append, List.count_eq_zero.mpr hb1, hk1]
  · simp [List.mem_append, hb2, hk2]
  · simp [List.mem_append, hb3, hk3]

theorem timeout_cleanup_single_forced_removal_witness :
    envTimedOut.createRes = .ok () ∧
    ((run_container none pythonDemoConfig "import time; time.sleep(10)"
        envTimedOut).2.count (Action.removeContainer true) = 1 ∧
    Action.stopContainer ∉
      (run_container none pythonDemoConfig "import time; time.sleep(10)"
        envTimedOut).2 ∧
    Action.killContainer ∉
      (run_container none pythonDemoConfig "import time; time.sleep(10)"
        envTimedOut).2) :=
  ⟨rfl, timeout_cleanup_single_forced_removal none pythonDemoConfig
    "import time; time.sleep(10)" envTimedOut rfl⟩

/-- C8 is false of the code at this input: with an empty cache, a lookup
that raises an `APIError` escapes `ensure_image` as an exception
(the function's only lookup handler is `except ImageNotFound`), instead
of being caught and turned into `false`. -/
theorem ensure_image_propagates_api_error :
    (ensure_image [] "img" none "." false envLookupApiErr).result =
      .error "500 Server Error: Internal Server Error" := rfl

/-- C8 (amended): when the lookup does not raise a non-`ImageNotFound`
error, `ensure_image` returns a boolean and no exception escapes — in
particular every build error is caught and logged, yielding `false`;
but when the image lookup raises any error other than `ImageNotFound`
(e.g. an `APIError` from the daemon) and the cache does not answer the
call, that exception propagates to the caller. -/
theorem ensure_image_error_policy (cache : Cache) (n : String)
    (dfp : Option String) (bc : String) (fr : Bool) (env env2 : EnsureEnv)
    (msg : String)
    (h1 : ∀ m, env.lookup ≠ LookupRes.apiErr m)
    (h2 : env2.lookup = LookupRes.apiErr msg)
    (h3 : (!fr && cacheMem cache n) = false) :
    (∃ b, (ensure_image cache n dfp bc fr env).result = .ok b) ∧
    (ensure_image cache n dfp bc fr env2).result = .error msg := by
  constructor
  · rcases env with ⟨lk, bd⟩
    cases lk with
    | apiErr m => exact absurd rfl (h1 m)
    | found =>
        refine ⟨true, ?_⟩
        by_cases hm : (!fr && cacheMem cache n) = true <;>
          simp [ensure_image, hm]
    | notFoundImage =>
        by_cases hm : (!fr && cacheMem cache n) = true
        · exact ⟨true, by simp [ensure_image, hm]⟩
        · by_cases ht : strOptTruthy dfp = true
          · cases bd with
            | ok => exact ⟨true, by simp [ensure_image, hm, ht]⟩
            | err m => exact ⟨false, by simp [ensure_image, hm, ht]⟩
          · rw [Bool.not_eq_true] at ht
            exact ⟨false, by simp [ensure_image, hm, ht]⟩
  · rcases env2 with ⟨lk2, bd2⟩
    simp only at h2
    subst h2
    simp [ensure_image, h3]

theorem ensure_image_error_policy_witness :
    (∀ m, envBuildOk.lookup ≠ LookupRes.apiErr m) ∧
    envLookupApiErr.lookup =
      LookupRes.apiErr "500 Server Error: Internal Server Error" ∧
    (!false && cacheMem [] "img") = false ∧
    ((∃ b, (ensure_image [] "img" (some "Dockerfile.python") "docker" false
        envBuildOk).result = .ok b) ∧
    (ensure_image [] "img" (some "Dockerfile.python") "docker" false
        envLookupApiErr).result =
      .error "500 Server Error: Internal Server Error") :=
  ⟨by simp [envBuildOk], rfl, rfl,
    ensure_image_error_policy [] "img" (some "Dockerfile.python") "docker"
      false envBuildOk envLookupApiErr
      "500 Server Error: Internal Server Error"
      (by simp [envBuildOk]) rfl rfl⟩

/-- C9: if a first `ensure_image` call for a name returned `true`, then a
second call for the same name without `force_rebuild` is a pure cache
hit: it returns `true`, leaves the cache unchanged, and issues no docker
call at all (empty trace), whatever the daemon would have answered. -/
theorem ensure_image_cache_hit_idempotent (cache : Cache) (n : String)
    (dfp dfp2 : Option String) (bc bc2 : String) (fr : Bool)
    (env1 env2 : EnsureEnv)
    (h : (ensure_image cache n dfp bc fr env1).result = .ok true) :
    ensure_image ((ensure_image cache n dfp bc fr env1).cache) n dfp2 bc2
        false env2 =
      ⟨.ok true, (ensure_image cache n dfp bc fr env1).cache, []⟩ := by
  have hm := ensure_image_ok_mem cache n dfp bc fr env1 h
  generalize hC : (ensure_image cache n dfp bc fr env1).cache = c2 at hm ⊢
  simp [ensure_image, hm]

theorem ensure_image_cache_hit_idempotent_witness :
    (ensure_image [] "assistant-python:latest" (some "Dockerfile.python")
        "docker" false envBuildOk).result = .ok true ∧
    ensure_image ((ensure_image [] "assistant-python:latest"
        (some "Dockerfile.python") "docker" false envBuildOk).cache)
        "assistant-python:latest" none "." false envDaemonPoisoned =
      ⟨.ok true, (ensure_image [] "assistant-python:latest"
        (some "Dockerfile.python") "docker" false envBuildOk).cache, []⟩ :=
  ⟨rfl, ensure_image_cache_hit_idempotent [] "assistant-python:latest"
    (some "Dockerfile.python") none "docker" "." false envBuildOk
    envDaemonPoisoned rfl⟩

/-- C10: the image cache only ever records successes.  A freshly
constructed manager has an empty cache; `ensure_image` (which inserts
only `true`, and only after a successful lookup or build) and
`remove_image` (which only deletes an entry, and only on successful
image removal) both preserve the invariant that every cache entry maps
to `true`. -/
theorem image_cache_only_records_success (sp : Option String)
    (da po dpe : Bool) (m : Manager) (cache : Cache) (n n2 : String)
    (dfp : Option String) (bc : String) (fr f2 : Bool) (env : EnsureEnv)
    (renv : RemoveImageRes)
    (hinit : dockerManagerInit sp da po dpe = .ok m)
    (h : cacheAllTrue cache) :
    cacheAllTrue m.image_cache ∧
    cacheAllTrue ((ensure_image cache n dfp bc fr env).cache) ∧
    cacheAllTrue ((remove_image cache n2 f2 renv).cache) := by
  refine ⟨?_, ?_, ?_⟩
  · rw [dockerManagerInit_cache_empty sp da po dpe m hinit]
    intro p hp
    cases hp
  · exact ensure_image_cache_preserves cache n dfp bc fr env h
  · exact remove_image_cache_preserves cache n2 f2 renv h

theorem image_cache_only_records_success_witness :
    dockerManagerInit none true true true =
      .ok ⟨some defaultSeccompPath, []⟩ ∧
    cacheAllTrue [("img", true)] ∧
    (cacheAllTrue (Manager.mk (some defaultSeccompPath) []).image_cache ∧
    cacheAllTrue ((ensure_image [("img", true)] "img2"
        (some "Dockerfile.python") "docker" false envBuildOk).cache) ∧
    cacheAllTrue ((remove_image [("img", true)] "img" true
        RemoveImageRes.ok).cache)) :=
  ⟨rfl, by intro p hp; simp at hp; simp [hp],
    image_cache_only_records_success none true true true
      ⟨some defaultSeccompPath, []⟩ [("img", true)] "img2" "img"
      (some "Dockerfile.python") "docker" false true envBuildOk
      RemoveImageRes.ok rfl (by intro p hp; simp at hp; simp [hp])⟩

end Platform
